import Mathlib

/-!
Verification of the PolicyEngine uprating calculator.

The repository has two source files: `rounding.py` (the rounding utility)
and `app.py` (the value resolver and the year-by-year uprating projector,
written inline in the calculation handler).  This file gives a shallow
embedding of those pieces and proves the specification's claims about them.

Modelling conventions:
* numeric values are rationals (the Python code works with exact-looking
  float arithmetic; the properties of interest are arithmetic identities);
* an indexed parameter is queried by the code only at the first day of a
  month, so a parameter is a map from (year, month) to an optional value;
* the Python dicts `year_values` / `month_used` are total functions into
  `Option`, updated pointwise;
* the projector's state (running value, the two dicts, the captured last
  factor, the three output lists, the warnings issued) is a structure
  threaded through a fold, mirroring the imperative loop;
* the state carries one ghost field, `divisors`, recording the divisor of
  every division the loop performs; it feeds the division-safety claim and
  affects nothing else.
-/

namespace Uprating

/-- An indexed parameter.  `app.py` queries the parameter only at instants
of the form year-month-01, so it is modelled as a map from year and month
to an optional value. -/
def Param : Type := Int → Nat → Option ℚ

/-- Python's zero-padded two-digit format for a month number. -/
def twoDigit (m : Nat) : String :=
  if m < 10 then "0" ++ toString m else toString m

/-- `get_all_values_for_year` from `app.py`: the months 1..12 of `year`
that carry a value, with their values.  The Python dict is built by
iterating months in increasing order, so it is modelled as an association
list in increasing month order. -/
def get_all_values_for_year (parameter : Param) (year : Int) : List (Nat × ℚ) :=
  (List.range' 1 12).filterMap fun month =>
    (parameter year month).map fun v => (month, v)

/-- `get_best_value_for_year` from `app.py`.  The Python function returns
the pair `(None, None)` when no month has data, modelled as `none`.
Because the association list is in increasing month order, the entry with
the largest key (`max(monthly_values.keys())`) is its last element and the
entry with the smallest key is its head. -/
def get_best_value_for_year (parameter : Param) (year : Int) :
    Option (ℚ × String) :=
  let monthly_values := get_all_values_for_year parameter year
  if monthly_values.isEmpty then
    none
  else if year ≤ 2024 then
    monthly_values.getLast?.map fun p => (p.2, twoDigit p.1)
  else
    monthly_values.head?.map fun p => (p.2, twoDigit p.1)

/-- Python's built-in `round`, used by `round_value` for the "nearest"
method: round half to even. -/
def pyRound (q : ℚ) : Int :=
  let f := ⌊q⌋
  let r := q - f
  if r < 1 / 2 then f
  else if 1 / 2 < r then f + 1
  else if f % 2 = 0 then f else f + 1

/-- `round_value` from `rounding.py`. -/
def round_value (value : ℚ) (rounding_base : ℚ := 1)
    (rounding_method : String := "nearest") : ℚ :=
  if rounding_base = 0 then
    value
  else if rounding_method = "nearest" then
    (pyRound (value / rounding_base) : ℚ) * rounding_base
  else if rounding_method = "upwards" then
    (⌈value / rounding_base⌉ : ℚ) * rounding_base
  else if rounding_method = "downwards" then
    (⌊value / rounding_base⌋ : ℚ) * rounding_base
  else
    value

/-- A pandas DataFrame, modelled as its columns: an association list from
column name to the column's values. -/
abbrev DataFrame : Type := List (String × List ℚ)

/-- `apply_rounding_to_dataframe` from `rounding.py`.  Reading a column
that is absent raises `KeyError` in pandas, modelled as `none`; otherwise
the named column's values are replaced by their rounded images and the
remaining columns are kept (the Lean function is pure, so the input table
is never mutated, matching the `df.copy()` in the source). -/
def apply_rounding_to_dataframe (df : DataFrame) (column_name : String)
    (rounding_base : ℚ) (rounding_method : String) : Option DataFrame :=
  match df.lookup column_name with
  | none => none
  | some col =>
      some (df.map fun p =>
        if p.1 = column_name then
          (p.1, col.map fun x => round_value x rounding_base rounding_method)
        else p)

/-- The state threaded through the projection loop of `app.py`:
the running value, the `year_values` and `month_used` dicts, the factor
captured at the ceiling year, the three output lists and the warnings
issued so far.  `divisors` is ghost instrumentation recording the divisor
of every division performed. -/
structure ProjState where
  current_value : ℚ
  year_values : Int → Option ℚ
  month_used : Int → Option String
  last_available_uprating_factor : Option ℚ
  uprated_values : List ℚ
  uprating_factors : List ℚ
  used_months : List String
  warnings : List Int
  divisors : List ℚ

/-- The common tail of the both-years-resolved branch: multiply the
running value by `1 + f`, append value, factor and month label, and at
the ceiling year 2035 capture the factor for later projection. -/
def apply_uprating (st : ProjState) (year : Int) (f : ℚ)
    (yv : Int → Option ℚ) (mu : Int → Option String) (divs : List ℚ) :
    ProjState :=
  { current_value := st.current_value * (1 + f)
    year_values := yv
    month_used := mu
    last_available_uprating_factor :=
      if year = 2035 then some f else st.last_available_uprating_factor
    uprated_values := st.uprated_values ++ [st.current_value * (1 + f)]
    uprating_factors := st.uprating_factors ++ [f]
    used_months := st.used_months ++ [(mu year).getD "N/A"]
    warnings := st.warnings
    divisors := st.divisors ++ divs }

/-- One iteration of the projection loop of `app.py` (the body of
`for i, year in enumerate(years[1:], 1)`); `prev_year` is `years[i-1]`,
i.e. `year - 1` since the years are consecutive. -/
def project_step (uprating_parameter : Param) (st : ProjState)
    (year : Int) : ProjState :=
  let prev_year := year - 1
  if year > 2035 then
    -- Years beyond 2035 use the last available uprating factor.
    match st.last_available_uprating_factor with
    | some lf =>
        { st with
          current_value := st.current_value * (1 + lf)
          uprated_values := st.uprated_values ++ [st.current_value * (1 + lf)]
          uprating_factors := st.uprating_factors ++ [lf]
          used_months := st.used_months ++ ["Projected"] }
    | none =>
        { st with
          uprated_values := st.uprated_values ++ [st.current_value]
          uprating_factors := st.uprating_factors ++ [0]
          used_months := st.used_months ++ ["No projection data"] }
  else
    match st.year_values year, st.year_values prev_year with
    | some vy, some vp =>
        let uprating_factor := vy / vp - 1
        -- Near-zero correction: retry with the February value.
        if |uprating_factor| < 1 / 10000 ∧ 2025 ≤ year then
          match uprating_parameter year 2 with
          | some feb_value =>
              if feb_value ≠ vy then
                apply_uprating st year (feb_value / vp - 1)
                  (fun y => if y = year then some feb_value else st.year_values y)
                  (fun y => if y = year then some "02" else st.month_used y)
                  [vp, vp]
              else
                apply_uprating st year uprating_factor st.year_values
                  st.month_used [vp]
          | none =>
              apply_uprating st year uprating_factor st.year_values
                st.month_used [vp]
        else
          apply_uprating st year uprating_factor st.year_values
            st.month_used [vp]
    | _, _ =>
        -- Missing data: warn per missing year, keep the value unchanged.
        { st with
          uprated_values := st.uprated_values ++ [st.current_value]
          uprating_factors := st.uprating_factors ++ [0]
          used_months := st.used_months ++ ["Missing data"]
          warnings := st.warnings
            ++ (if (st.year_values year).isNone then [year] else [])
            ++ (if (st.year_values prev_year).isNone then [prev_year] else []) }

/-- The years resolved up front by `app.py`:
`range(start_year - 1, start_year + projection_years + 1)`. -/
def resolve_range (start_year : Int) (projection_years : Nat) : List Int :=
  (List.range (projection_years + 2)).map fun (i : Nat) => start_year - 1 + (i : Int)

/-- One iteration of the resolving loop: years beyond 2035 are skipped,
and a year whose resolver result is `None` is left out of both dicts. -/
def record_year (uprating_parameter : Param)
    (maps : (Int → Option ℚ) × (Int → Option String)) (year : Int) :
    (Int → Option ℚ) × (Int → Option String) :=
  if year > 2035 then maps
  else
    match get_best_value_for_year uprating_parameter year with
    | some (v, m) =>
        (fun y => if y = year then some v else maps.1 y,
         fun y => if y = year then some m else maps.2 y)
    | none => maps

/-- The `year_values` and `month_used` dicts after the resolving loop. -/
def build_year_values (uprating_parameter : Param) (start_year : Int)
    (projection_years : Nat) : (Int → Option ℚ) × (Int → Option String) :=
  (resolve_range start_year projection_years).foldl
    (record_year uprating_parameter) (fun _ => none, fun _ => none)

/-- The years `years[1:]` of the projection loop. -/
def later_years (start_year : Int) (projection_years : Nat) : List Int :=
  (List.range projection_years).map fun (i : Nat) => start_year + 1 + (i : Int)

/-- The whole calculation of `app.py`: resolve the year range, seed the
series with the never-uprated first year (original value, factor `0.0`,
month label from `month_used` or `"N/A"`), then run the loop over the
remaining years.  The app fixes `projection_years = 20`; the horizon is a
parameter here and the claims quantify over it. -/
def project (value : ℚ) (start_year : Int) (projection_years : Nat)
    (uprating_parameter : Param) : ProjState :=
  (later_years start_year projection_years).foldl
    (project_step uprating_parameter)
    { current_value := value
      year_values := (build_year_values uprating_parameter start_year projection_years).1
      month_used := (build_year_values uprating_parameter start_year projection_years).2
      last_available_uprating_factor := none
      uprated_values := [value]
      uprating_factors := [0]
      used_months :=
        [((build_year_values uprating_parameter start_year projection_years).2
            start_year).getD "N/A"]
      warnings := []
      divisors := [] }

/-- Nonzero-valued year map: the precondition the division-safety claim
places on the resolved values. -/
def MapNonzero (g : Int → Option ℚ) : Prop :=
  ∀ y q, g y = some q → q ≠ 0

/-- A concrete parameter carrying the specification's end-to-end data:
a single resolved monthly value per year, 300 for 2023, 310 for 2024 and
315.5 for 2025, all in January. -/
def cparam1 : Param := fun y m =>
  if y = 2023 ∧ m = 1 then some 300
  else if y = 2024 ∧ m = 1 then some 310
  else if y = 2025 ∧ m = 1 then some (631 / 2)
  else none

/-- A concrete parameter whose resolved yearly values are all nonzero
(January months) but whose February 2025 value is zero, so the near-zero
correction stores a zero into the year map. -/
def cparam10 : Param := fun y m =>
  if y = 2024 ∧ m = 1 then some 100
  else if y = 2025 ∧ m = 1 then some 100
  else if y = 2025 ∧ m = 2 then some 0
  else if y = 2026 ∧ m = 1 then some 50
  else none

/-- A concrete parameter with only a February 2025 value, used to exercise
the near-zero correction. -/
def param6 : Param := fun y m =>
  if y = 2025 ∧ m = 2 then some 210 else none

/-- A concrete loop state with a captured last available uprating factor. -/
def st5 : ProjState :=
  { current_value := 1000
    year_values := fun _ => none
    month_used := fun _ => none
    last_available_uprating_factor := some (1 / 10)
    uprated_values := [1000]
    uprating_factors := [0]
    used_months := ["N/A"]
    warnings := []
    divisors := [] }

/-- A concrete loop state in which 2024 and 2025 both resolved to the same
value 200 (from January 2025), so the uprating factor at 2025 is zero. -/
def st6 : ProjState :=
  { current_value := 100
    year_values := fun y =>
      if y = 2025 then some 200 else if y = 2024 then some 200 else none
    month_used := fun y =>
      if y = 2025 then some "01" else if y = 2024 then some "12" else none
    last_available_uprating_factor := none
    uprated_values := [100]
    uprating_factors := [0]
    used_months := ["12"]
    warnings := []
    divisors := [] }

/-- A concrete loop state with no resolved values at all. -/
def st7 : ProjState :=
  { current_value := 1000
    year_values := fun _ => none
    month_used := fun _ => none
    last_available_uprating_factor := none
    uprated_values := [1000]
    uprating_factors := [0]
    used_months := ["N/A"]
    warnings := []
    divisors := [] }

/-- A concrete two-column table. -/
def df0 : DataFrame := [("Year", [2024]), ("Uprated Value", [3 / 2])]

/-!
Helper lemmas: arithmetic facts about the rounding primitive, the shape of
the resolver's month list, the shape of a loop step, and how the resolving
loop fills the year maps.
-/

theorem pyRound_intCast (n : ℤ) : pyRound (n : ℚ) = n := by
  simp [pyRound]

theorem get_all_eq_nil (parameter : Param) (year : Int)
    (h : ∀ m, 1 ≤ m → m ≤ 12 → parameter year m = none) :
    get_all_values_for_year parameter year = [] := by
  apply List.filterMap_eq_nil_iff.mpr
  intro a ha
  rw [List.mem_range'_1] at ha
  rw [h a ha.1 (by omega)]
  rfl

theorem get_all_getLast (parameter : Param) (year : Int) (m : Nat) (v : ℚ)
    (h1 : 1 ≤ m) (h2 : m ≤ 12) (hv : parameter year m = some v)
    (hafter : ∀ m2, m < m2 → m2 ≤ 12 → parameter year m2 = none) :
    (get_all_values_for_year parameter year).getLast? = some (m, v) ∧
    get_all_values_for_year parameter year ≠ [] := by
  have hsplit2 : List.range' 1 (m - 1) ++ List.range' m 1 = List.range' 1 m := by
    have h3 := List.range'_append_1 1 (m - 1) 1
    rw [show 1 + (m - 1) = m by omega] at h3
    rw [h3]
  have hsplit : List.range' 1 m ++ List.range' (1 + m) (12 - m)
      = List.range' 1 12 := by
    rw [List.range'_append_1]
    congr 1
    omega
  have htail : (List.range' (1 + m) (12 - m)).filterMap
      (fun month => (parameter year month).map fun v => (month, v)) = [] := by
    apply List.filterMap_eq_nil_iff.mpr
    intro a ha
    rw [List.mem_range'_1] at ha
    rw [hafter a (by omega) (by omega)]
    rfl
  have hone : (List.range' m 1).filterMap
      (fun month => (parameter year month).map fun v => (month, v))
      = [(m, v)] := by
    rw [List.range'_one]
    simp [List.filterMap, hv]
  unfold get_all_values_for_year
  rw [← hsplit, ← hsplit2, List.filterMap_append, List.filterMap_append, htail,
    List.append_nil, hone]
  constructor
  · exact List.getLast?_concat _
  · simp

theorem get_all_head (parameter : Param) (year : Int) (m : Nat) (v : ℚ)
    (h1 : 1 ≤ m) (h2 : m ≤ 12) (hv : parameter year m = some v)
    (hbefore : ∀ m2, 1 ≤ m2 → m2 < m → parameter year m2 = none) :
    (get_all_values_for_year parameter year).head? = some (m, v) ∧
    get_all_values_for_year parameter year ≠ [] := by
  have hsplit : List.range' 1 (m - 1) ++ List.range' m (13 - m)
      = List.range' 1 12 := by
    have h3 := List.range'_append_1 1 (m - 1) (13 - m)
    rw [show 1 + (m - 1) = m by omega] at h3
    rw [h3]
    congr 1
    omega
  have hhead : (List.range' 1 (m - 1)).filterMap
      (fun month => (parameter year month).map fun v => (month, v)) = [] := by
    apply List.filterMap_eq_nil_iff.mpr
    intro a ha
    rw [List.mem_range'_1] at ha
    rw [hbefore a ha.1 (by omega)]
    rfl
  have hcons : List.range' m (13 - m) = m :: List.range' (m + 1) (12 - m) := by
    rw [show 13 - m = (12 - m) + 1 by omega]
    rw [List.range'_succ]
  unfold get_all_values_for_year
  rw [← hsplit, List.filterMap_append, hhead, List.nil_append, hcons]
  rw [List.filterMap_cons]
  simp only [hv, Option.map_some']
  constructor
  · rfl
  · simp

theorem resolver_value_from_param (p : Param) (y : Int) (v : ℚ) (m : String)
    (h : get_best_value_for_year p y = some (v, m)) :
    ∃ mo, p y mo = some v := by
  unfold get_best_value_for_year at h
  have hmem : ∃ pr : Nat × ℚ, pr ∈ get_all_values_for_year p y ∧ pr.2 = v := by
    by_cases he : (get_all_values_for_year p y).isEmpty
    · rw [if_pos he] at h
      exact absurd h (by simp)
    · rw [if_neg he] at h
      split_ifs at h
      · obtain ⟨pr, hpr, hpr2⟩ := Option.map_eq_some'.mp h
        exact ⟨pr, List.mem_of_mem_getLast? hpr, congrArg Prod.fst hpr2⟩
      · obtain ⟨pr, hpr, hpr2⟩ := Option.map_eq_some'.mp h
        exact ⟨pr, List.mem_of_mem_head? hpr, congrArg Prod.fst hpr2⟩
  obtain ⟨pr, hpr, hv⟩ := hmem
  unfold get_all_values_for_year at hpr
  obtain ⟨a, ha, hfa⟩ := List.mem_filterMap.mp hpr
  obtain ⟨w, hw, heq⟩ := Option.map_eq_some'.mp hfa
  refine ⟨a, ?_⟩
  rw [hw]
  have hw2 : w = pr.2 := congrArg Prod.snd heq
  rw [hw2, hv]

theorem step_appends (p : Param) (st : ProjState) (y : Int) :
    ∃ a b c,
      (project_step p st y).uprated_values = st.uprated_values ++ [a] ∧
      (project_step p st y).uprating_factors = st.uprating_factors ++ [b] ∧
      (project_step p st y).used_months = st.used_months ++ [c] := by
  unfold project_step
  by_cases h : y > 2035
  · rw [if_pos h]
    rcases hl : st.last_available_uprating_factor with _ | lf <;>
      exact ⟨_, _, _, rfl, rfl, rfl⟩
  · rw [if_neg h]
    rcases hy : st.year_values y with _ | vy <;>
      rcases hp : st.year_values (y - 1) with _ | vp <;>
      simp only [hy, hp]
    · exact ⟨_, _, _, rfl, rfl, rfl⟩
    · exact ⟨_, _, _, rfl, rfl, rfl⟩
    · exact ⟨_, _, _, rfl, rfl, rfl⟩
    · by_cases htrig : |vy / vp - 1| < 1 / 10000 ∧ 2025 ≤ y
      · rcases hfeb : p y 2 with _ | fv
        · refine ⟨st.current_value * (1 + (vy / vp - 1)), vy / vp - 1,
              (st.month_used y).getD "N/A", ?_, ?_, ?_⟩ <;>
            simp [htrig.1, htrig.2, hfeb, apply_uprating, -one_div]
        · by_cases hne : fv = vy
          · refine ⟨st.current_value * (1 + (vy / vp - 1)), vy / vp - 1,
                (st.month_used y).getD "N/A", ?_, ?_, ?_⟩ <;>
              simp [htrig.1, htrig.2, hfeb, hne, apply_uprating, -one_div]
          · refine ⟨st.current_value * (1 + (fv / vp - 1)), fv / vp - 1,
                "02", ?_, ?_, ?_⟩ <;>
              simp [htrig.1, htrig.2, hfeb, hne, apply_uprating, -one_div]
      · refine ⟨st.current_value * (1 + (vy / vp - 1)), vy / vp - 1,
            (st.month_used y).getD "N/A", ?_, ?_, ?_⟩ <;>
          simp [htrig, apply_uprating, -one_div]

theorem foldl_appends (p : Param) (l : List Int) (st : ProjState) :
    ∃ xs ys zs,
      (l.foldl (project_step p) st).uprated_values = st.uprated_values ++ xs ∧
      (l.foldl (project_step p) st).uprating_factors
        = st.uprating_factors ++ ys ∧
      (l.foldl (project_step p) st).used_months = st.used_months ++ zs ∧
      xs.length = l.length ∧ ys.length = l.length ∧ zs.length = l.length := by
  induction l generalizing st with
  | nil => exact ⟨[], [], [], by simp, by simp, by simp, rfl, rfl, rfl⟩
  | cons a t ih =>
    obtain ⟨x, y2, z, e1, e2, e3⟩ := step_appends p st a
    obtain ⟨xs, ys, zs, f1, f2, f3, g1, g2, g3⟩ := ih (project_step p st a)
    refine ⟨x :: xs, y2 :: ys, z :: zs, ?_, ?_, ?_, ?_, ?_, ?_⟩ <;>
      simp [List.foldl_cons, f1, f2, f3, e1, e2, e3, g1, g2, g3]

theorem record_year_at_ne (p : Param)
    (maps : (Int → Option ℚ) × (Int → Option String)) (a y : Int) (h : y ≠ a) :
    (record_year p maps a).1 y = maps.1 y ∧
    (record_year p maps a).2 y = maps.2 y := by
  unfold record_year
  split_ifs
  · exact ⟨rfl, rfl⟩
  · rcases hres : get_best_value_for_year p a with _ | ⟨v, m⟩
    · simp [hres]
    · simp [hres, h]

theorem record_year_of_none (p : Param)
    (maps : (Int → Option ℚ) × (Int → Option String)) (a : Int)
    (h : get_best_value_for_year p a = none) :
    record_year p maps a = maps := by
  unfold record_year
  split_ifs
  · rfl
  · simp [h]

theorem fold_record_ne (p : Param) (y : Int) (l : List Int) :
    ∀ maps, y ∉ l →
      (l.foldl (record_year p) maps).1 y = maps.1 y ∧
      (l.foldl (record_year p) maps).2 y = maps.2 y := by
  induction l with
  | nil => exact fun maps _ => ⟨rfl, rfl⟩
  | cons a t ih =>
    intro maps h
    have hya : y ≠ a := fun e => h (by simp [e])
    have hyt : y ∉ t := fun e => h (by simp [e])
    rw [List.foldl_cons]
    obtain ⟨e1, e2⟩ := ih (record_year p maps a) hyt
    obtain ⟨f1, f2⟩ := record_year_at_ne p maps a y hya
    exact ⟨e1.trans f1, e2.trans f2⟩

theorem fold_record_none (p : Param) (y : Int)
    (hres : get_best_value_for_year p y = none) (l : List Int) :
    ∀ maps,
      (l.foldl (record_year p) maps).1 y = maps.1 y ∧
      (l.foldl (record_year p) maps).2 y = maps.2 y := by
  induction l with
  | nil => exact fun maps => ⟨rfl, rfl⟩
  | cons a t ih =>
    intro maps
    rw [List.foldl_cons]
    by_cases hya : y = a
    · subst hya
      rw [record_year_of_none p maps y hres]
      exact ih maps
    · obtain ⟨e1, e2⟩ := ih (record_year p maps a)
      obtain ⟨f1, f2⟩ := record_year_at_ne p maps a y hya
      exact ⟨e1.trans f1, e2.trans f2⟩

theorem fold_record_mem (p : Param) (y : Int) (v : ℚ) (m : String)
    (hres : get_best_value_for_year p y = some (v, m)) (h2035 : ¬ y > 2035)
    (l : List Int) :
    ∀ maps, y ∈ l →
      (l.foldl (record_year p) maps).1 y = some v ∧
      (l.foldl (record_year p) maps).2 y = some m := by
  induction l with
  | nil => intro maps h; exact absurd h (by simp)
  | cons a t ih =>
    intro maps hmem
    rw [List.foldl_cons]
    by_cases hyt : y ∈ t
    · exact ih _ hyt
    · have hya : y = a := by
        rcases List.mem_cons.mp hmem with h | h
        · exact h
        · exact absurd h hyt
      subst hya
      obtain ⟨e1, e2⟩ := fold_record_ne p y t (record_year p maps y) hyt
      constructor
      · rw [e1]
        unfold record_year
        rw [if_neg h2035, hres]
        simp
      · rw [e2]
        unfold record_year
        rw [if_neg h2035, hres]
        simp

theorem mem_resolve_range_start (sy : Int) (n : Nat) :
    sy ∈ resolve_range sy n := by
  unfold resolve_range
  rw [List.mem_map]
  exact ⟨1, by rw [List.mem_range]; omega, by omega⟩

theorem build_at_mem (p : Param) (sy : Int) (n : Nat) (y : Int) (v : ℚ)
    (m : String) (hmem : y ∈ resolve_range sy n) (h2035 : y ≤ 2035)
    (hres : get_best_value_for_year p y = some (v, m)) :
    (build_year_values p sy n).1 y = some v ∧
    (build_year_values p sy n).2 y = some m :=
  fold_record_mem p y v m hres (by omega) (resolve_range sy n) _ hmem

theorem build_at_none (p : Param) (sy : Int) (n : Nat) (y : Int)
    (hres : get_best_value_for_year p y = none) :
    (build_year_values p sy n).1 y = none ∧
    (build_year_values p sy n).2 y = none :=
  fold_record_none p y hres (resolve_range sy n) _

theorem lookup_map_rounded_self (cn : String) (vals : List ℚ) (b : ℚ)
    (m : String) :
    ∀ df : DataFrame, df.lookup cn = some vals →
      (df.map fun p => if p.1 = cn then
          (p.1, vals.map fun x => round_value x b m) else p).lookup cn
        = some (vals.map fun x => round_value x b m) := by
  intro df
  induction df with
  | nil => intro h; simp [List.lookup] at h
  | cons p t ih =>
    rcases p with ⟨k, w⟩
    intro h
    rw [List.map_cons]
    by_cases hp : k = cn
    · subst hp
      rw [if_pos rfl]
      simp [List.lookup]
    · have hkc : (cn == k) = false := by simp [Ne.symm hp]
      have h2 : t.lookup cn = some vals := by
        rw [List.lookup, hkc] at h
        exact h
      rw [if_neg hp]
      rw [List.lookup, hkc]
      exact ih h2

theorem lookup_map_rounded_other (cn : String) (vals : List ℚ) (b : ℚ)
    (m : String) (c2 : String) (hne : c2 ≠ cn) :
    ∀ df : DataFrame,
      (df.map fun p => if p.1 = cn then
          (p.1, vals.map fun x => round_value x b m) else p).lookup c2
        = df.lookup c2 := by
  intro df
  induction df with
  | nil => rfl
  | cons p t ih =>
    rcases p with ⟨k, w⟩
    rw [List.map_cons]
    by_cases hp : k = cn
    · subst hp
      have hkc : (c2 == k) = false := by simp [hne]
      rw [if_pos rfl]
      rw [List.lookup, List.lookup, hkc]
      exact ih
    · rw [if_neg hp]
      by_cases hc : c2 = k
      · subst hc
        rw [List.lookup, List.lookup]
        simp
      · have hkc : (c2 == k) = false := by simp [hc]
        rw [List.lookup, List.lookup, hkc]
        exact ih

theorem step_preserves_nonzero (p : Param) (st : ProjState) (y : Int)
    (Hp : ∀ y2 m q, p y2 m = some q → q ≠ 0)
    (hmap : MapNonzero st.year_values) :
    MapNonzero (project_step p st y).year_values ∧
    ∃ ds, (project_step p st y).divisors = st.divisors ++ ds ∧
      ∀ d ∈ ds, d ≠ 0 := by
  unfold project_step
  by_cases h : y > 2035
  · rw [if_pos h]
    rcases hl : st.last_available_uprating_factor with _ | lf
    · exact ⟨hmap, [], by simp, by simp⟩
    · exact ⟨hmap, [], by simp, by simp⟩
  · rw [if_neg h]
    rcases hy : st.year_values y with _ | vy <;>
      rcases hp2 : st.year_values (y - 1) with _ | vp <;> simp only [hy, hp2]
    · exact ⟨hmap, [], by simp, by simp⟩
    · exact ⟨hmap, [], by simp, by simp⟩
    · exact ⟨hmap, [], by simp, by simp⟩
    · have hvp0 : vp ≠ 0 := hmap _ _ hp2
      by_cases htrig : |vy / vp - 1| < 1 / 10000 ∧ 2025 ≤ y
      · rcases hfeb : p y 2 with _ | fv
        · refine ⟨?_, [vp], ?_, ?_⟩
          · simp only [htrig.1, htrig.2, hfeb, apply_uprating, and_self,
              if_true]
            exact hmap
          · simp [htrig.1, htrig.2, hfeb, apply_uprating, -one_div]
          · simp [hvp0]
        · by_cases hne : fv = vy
          · refine ⟨?_, [vp], ?_, ?_⟩
            · simp only [htrig.1, htrig.2, hfeb, hne, apply_uprating]
              simp [apply_uprating]
              exact hmap
            · simp [htrig.1, htrig.2, hfeb, hne, apply_uprating, -one_div]
            · simp [hvp0]
          · refine ⟨?_, [vp, vp], ?_, ?_⟩
            · simp only [htrig.1, htrig.2, hfeb, hne, apply_uprating,
                and_self, if_true, ite_not, if_false]
              intro y2 q hq
              by_cases hy2 : y2 = y
              · subst hy2
                have hq2 : (if y2 = y2 then some fv else st.year_values y2)
                    = some q := hq
                rw [if_pos rfl] at hq2
                have hqv : q = fv := by
                  injection hq2 with hq3
                  exact hq3.symm
                rw [hqv]
                exact Hp y2 2 fv hfeb
              · have hq2 : (if y2 = y then some fv else st.year_values y2)
                    = some q := hq
                rw [if_neg hy2] at hq2
                exact hmap y2 q hq2
            · simp [htrig.1, htrig.2, hfeb, hne, apply_uprating, -one_div]
            · simp [hvp0]
      · refine ⟨?_, [vp], ?_, ?_⟩
        · simp only [htrig, apply_uprating, if_false]
          exact hmap
        · simp [htrig, apply_uprating, -one_div]
        · simp [hvp0]

theorem fold_step_divisors (p : Param)
    (Hp : ∀ y m q, p y m = some q → q ≠ 0) (l : List Int) :
    ∀ st : ProjState, MapNonzero st.year_values →
      (∀ d ∈ st.divisors, d ≠ 0) →
      ∀ d ∈ (l.foldl (project_step p) st).divisors, d ≠ 0 := by
  induction l with
  | nil => exact fun st _ h2 => h2
  | cons a t ih =>
    intro st h1 h2
    rw [List.foldl_cons]
    obtain ⟨m1, ds, hds, hdsnz⟩ := step_preserves_nonzero p st a Hp h1
    refine ih _ m1 ?_
    rw [hds]
    intro d hd
    rcases List.mem_append.mp hd with hd | hd
    · exact h2 d hd
    · exact hdsnz d hd

theorem fold_record_nonzero (p : Param)
    (Hp : ∀ y m q, p y m = some q → q ≠ 0) (l : List Int) :
    ∀ maps, MapNonzero maps.1 →
      MapNonzero (l.foldl (record_year p) maps).1 := by
  induction l with
  | nil => exact fun maps h => h
  | cons a t ih =>
    intro maps hmap
    rw [List.foldl_cons]
    apply ih
    unfold record_year
    split_ifs
    · exact hmap
    · rcases hres : get_best_value_for_year p a with _ | ⟨v, m⟩
      · simp only [hres]
        exact hmap
      · simp only [hres]
        intro y2 q hq
        have hq2 : (if y2 = a then some v else maps.1 y2) = some q := hq
        by_cases hy2 : y2 = a
        · subst hy2
          rw [if_pos rfl] at hq2
          have hqv : q = v := by
            injection hq2 with hq3
            exact hq3.symm
          obtain ⟨mo, hmo⟩ := resolver_value_from_param p y2 v m hres
          rw [hqv]
          exact Hp y2 mo v hmo
        · rw [if_neg hy2] at hq2
          exact hmap y2 q hq2

theorem cparam1_values_nonzero :
    ∀ y m q, cparam1 y m = some q → q ≠ 0 := by
  intro y m q h
  unfold cparam1 at h
  split_ifs at h <;> injection h with h2 <;> rw [← h2] <;> norm_num

theorem cparam10_resolver_nonzero :
    ∀ y q s, get_best_value_for_year cparam10 y = some (q, s) → q ≠ 0 := by
  intro y q s hres
  by_cases h24 : y = 2024
  · subst h24
    rw [show get_best_value_for_year cparam10 2024 = some (100, "01")
      from rfl] at hres
    simp only [Option.some.injEq, Prod.mk.injEq] at hres
    rw [← hres.1]
    norm_num
  · by_cases h25 : y = 2025
    · subst h25
      rw [show get_best_value_for_year cparam10 2025 = some (100, "01")
        from rfl] at hres
      simp only [Option.some.injEq, Prod.mk.injEq] at hres
      rw [← hres.1]
      norm_num
    · by_cases h26 : y = 2026
      · subst h26
        rw [show get_best_value_for_year cparam10 2026 = some (50, "01")
          from rfl] at hres
        simp only [Option.some.injEq, Prod.mk.injEq] at hres
        rw [← hres.1]
        norm_num
      · have hnone : get_best_value_for_year cparam10 y = none := by
          unfold get_best_value_for_year
          rw [get_all_eq_nil cparam10 y (fun m _ _ => by
            simp [cparam10, h24, h25, h26])]
          rfl
        rw [hnone] at hres
        exact absurd hres (by simp)

/-!
The claims.
-/

/-- C1 (amended): in the projection loop, for every subsequent year `y`
with previous year `p`, when both have resolved values in the year-value
map, the appended uprating factor equals `value[y] / value[p] - 1` (with
`value[y]` read from the possibly February-corrected map) and the
projected value at `y` equals the projected value at `p` multiplied by
`1 + factor`.  In particular, for `initial_value = 1000`, `start_year =
2023` (the spec's `2024` is off by one, see the counterexample), `horizon
= 2` and resolved values 300 for 2023, 310 for 2024 and 315.5 for 2025,
the series is `[1000, 1000 * (310/300), 1000 * (310/300) * (315.5/310)]`
with factors `[0, 310/300 - 1, 315.5/310 - 1]`. -/
theorem c1_factor_and_series :
    (∀ (parameter : Param) (st : ProjState) (year : Int) (vy vp : ℚ),
      year ≤ 2035 → st.year_values year = some vy →
      st.year_values (year - 1) = some vp →
      ∃ f vy2,
        (project_step parameter st year).year_values year = some vy2 ∧
        (project_step parameter st year).year_values (year - 1) = some vp ∧
        f = vy2 / vp - 1 ∧
        (project_step parameter st year).uprating_factors
            = st.uprating_factors ++ [f] ∧
        (project_step parameter st year).uprated_values
            = st.uprated_values ++ [st.current_value * (1 + f)] ∧
        (project_step parameter st year).current_value
            = st.current_value * (1 + f)) ∧
    (project 1000 2023 2 cparam1).uprated_values
        = [1000, 1000 * (310 / 300), 1000 * (310 / 300) * ((631 / 2) / 310)] ∧
    (project 1000 2023 2 cparam1).uprating_factors
        = [0, 310 / 300 - 1, (631 / 2) / 310 - 1] := by
  refine ⟨?_, ?_, ?_⟩
  · intro parameter st year vy vp h2035 hvy hvp
    unfold project_step
    rw [if_neg (by omega), hvy, hvp]
    by_cases htrig : |vy / vp - 1| < 1 / 10000 ∧ 2025 ≤ year
    · rcases hfeb : parameter year 2 with _ | fv
      · refine ⟨vy / vp - 1, vy, ?_, ?_, rfl, ?_, ?_, ?_⟩ <;>
          simp [htrig.1, htrig.2, hfeb, apply_uprating, hvy, hvp, -one_div]
      · by_cases hne : fv = vy
        · refine ⟨vy / vp - 1, vy, ?_, ?_, rfl, ?_, ?_, ?_⟩ <;>
            simp [htrig.1, htrig.2, hfeb, hne, apply_uprating, hvy, hvp,
              -one_div]
        · refine ⟨fv / vp - 1, fv, ?_, ?_, rfl, ?_, ?_, ?_⟩ <;>
            simp [htrig.1, htrig.2, hfeb, hne, apply_uprating, hvp,
              show year - 1 ≠ year by omega, -one_div]
    · refine ⟨vy / vp - 1, vy, ?_, ?_, rfl, ?_, ?_, ?_⟩ <;>
        simp [htrig, apply_uprating, hvy, hvp, -one_div]
  · norm_num [project, build_year_values, resolve_range, record_year,
      later_years, project_step, apply_uprating, get_best_value_for_year,
      get_all_values_for_year, cparam1, twoDigit, List.range', List.range,
      List.range.loop, List.filterMap]
  · norm_num [project, build_year_values, resolve_range, record_year,
      later_years, project_step, apply_uprating, get_best_value_for_year,
      get_all_values_for_year, cparam1, twoDigit, List.range', List.range,
      List.range.loop, List.filterMap]

set_option maxHeartbeats 1000000 in
/-- C1, counterexample to the claim as stated: with `start_year = 2024`
(as the spec's end-to-end property writes it) the code's first loop year
is 2025, whose factor is `315.5/310 - 1`, and 2026 has no data, so the
series the code returns is `[1000, 1000 * (315.5/310), unchanged]`, not
the claimed `[1000, 1000 * (310/300), 1000 * (310/300) * (315.5/310)]`. -/
theorem c1_series_start_2024_refuted :
    (project 1000 2024 2 cparam1).uprated_values
        = [1000, 31550 / 31, 31550 / 31] ∧
    ¬ ((project 1000 2024 2 cparam1).uprated_values
        = [1000, 1000 * (310 / 300), 1000 * (310 / 300) * ((631 / 2) / 310)]) := by
  constructor <;>
    norm_num [project, build_year_values, resolve_range, record_year,
      later_years, project_step, apply_uprating, get_best_value_for_year,
      get_all_values_for_year, cparam1, twoDigit, List.range', List.range,
      List.range.loop, List.filterMap]

/-- C2: for every input with `start_year` inside the app's input range
(at most 2035, the app's `max_year`), the projection series has length
`horizon + 1` in all three of its columns, and its first entry has factor
exactly `0`, raw value exactly the initial value, and month label the
resolved month for `start_year` when one exists, else `"N/A"`. -/
theorem c2_series_shape_and_baseline (v : ℚ) (sy : Int) (n : Nat)
    (p : Param) (h : sy ≤ 2035) :
    (project v sy n p).uprated_values.length = n + 1 ∧
    (project v sy n p).uprating_factors.length = n + 1 ∧
    (project v sy n p).used_months.length = n + 1 ∧
    (project v sy n p).uprated_values.head? = some v ∧
    (project v sy n p).uprating_factors.head? = some 0 ∧
    (project v sy n p).used_months.head?
      = some (((get_best_value_for_year p sy).map Prod.snd).getD "N/A") := by
  unfold project
  obtain ⟨xs, ys, zs, e1, e2, e3, g1, g2, g3⟩ :=
    foldl_appends p (later_years sy n)
      { current_value := v
        year_values := (build_year_values p sy n).1
        month_used := (build_year_values p sy n).2
        last_available_uprating_factor := none
        uprated_values := [v]
        uprating_factors := [0]
        used_months := [((build_year_values p sy n).2 sy).getD "N/A"]
        warnings := []
        divisors := [] }
  have g1n : xs.length = n := by rw [g1]; simp [later_years]
  have g2n : ys.length = n := by rw [g2]; simp [later_years]
  have g3n : zs.length = n := by rw [g3]; simp [later_years]
  refine ⟨?_, ?_, ?_, ?_, ?_, ?_⟩
  · rw [e1]
    simp [g1n]
  · rw [e2]
    simp [g2n]
  · rw [e3]
    simp [g3n]
  · rw [e1]
    simp
  · rw [e2]
    simp
  · rw [e3]
    rcases hres : get_best_value_for_year p sy with _ | ⟨val, mo⟩
    · obtain ⟨b1, b2⟩ := build_at_none p sy n sy hres
      simp [b2]
    · obtain ⟨b1, b2⟩ :=
        build_at_mem p sy n sy val mo (mem_resolve_range_start sy n) h hres
      simp [b2]

/-- C2, witness at a concrete input. -/
theorem c2_witness :
    (project 1000 2024 2 cparam1).uprated_values.length = 2 + 1 ∧
    (project 1000 2024 2 cparam1).uprating_factors.length = 2 + 1 ∧
    (project 1000 2024 2 cparam1).used_months.length = 2 + 1 ∧
    (project 1000 2024 2 cparam1).uprated_values.head? = some 1000 ∧
    (project 1000 2024 2 cparam1).uprating_factors.head? = some 0 ∧
    (project 1000 2024 2 cparam1).used_months.head?
      = some (((get_best_value_for_year cparam1 2024).map Prod.snd).getD
          "N/A") :=
  c2_series_shape_and_baseline 1000 2024 2 cparam1 (by norm_num)

/-- C3: for every parameter and year, `get_best_value_for_year` returns
the `(None, None)` sentinel (modelled `none`) when no month of the year
has a value; otherwise for `year ≤ 2024` it returns the value of the
latest month with data, labelled with that month's two-digit string, and
for `year ≥ 2025` the value of the earliest month with data, so
labelled. -/
theorem c3_resolver_month_selection (parameter : Param) (year : Int) :
    ((∀ m, 1 ≤ m → m ≤ 12 → parameter year m = none) →
      get_best_value_for_year parameter year = none) ∧
    (∀ m v, 1 ≤ m → m ≤ 12 → year ≤ 2024 → parameter year m = some v →
      (∀ m2, m < m2 → m2 ≤ 12 → parameter year m2 = none) →
      get_best_value_for_year parameter year = some (v, twoDigit m)) ∧
    (∀ m v, 1 ≤ m → m ≤ 12 → 2025 ≤ year → parameter year m = some v →
      (∀ m2, 1 ≤ m2 → m2 < m → parameter year m2 = none) →
      get_best_value_for_year parameter year = some (v, twoDigit m)) := by
  refine ⟨?_, ?_, ?_⟩
  · intro h
    unfold get_best_value_for_year
    rw [get_all_eq_nil parameter year h]
    rfl
  · intro m v h1 h2 hyear hv hafter
    obtain ⟨hl, hne⟩ := get_all_getLast parameter year m v h1 h2 hv hafter
    unfold get_best_value_for_year
    simp only [List.isEmpty_iff, hne, if_false, if_pos hyear, hl]
    rfl
  · intro m v h1 h2 hyear hv hbefore
    obtain ⟨hh, hne⟩ := get_all_head parameter year m v h1 h2 hv hbefore
    unfold get_best_value_for_year
    simp only [List.isEmpty_iff, hne, if_false, hh]
    rw [if_neg (by omega)]
    rfl

/-- C4: `round_value x b m` equals `x` when `b = 0`; `round(x/b) * b`
(Python round, half to even) when `m` is `"nearest"`; `ceil(x/b) * b`
when `"upwards"`; `floor(x/b) * b` when `"downwards"`; and `x` for any
other method string. -/
theorem c4_round_value_cases (x b : ℚ) (m : String) :
    (b = 0 → round_value x b m = x) ∧
    (b ≠ 0 → m = "nearest" → round_value x b m = (pyRound (x / b) : ℚ) * b) ∧
    (b ≠ 0 → m = "upwards" → round_value x b m = (⌈x / b⌉ : ℚ) * b) ∧
    (b ≠ 0 → m = "downwards" → round_value x b m = (⌊x / b⌋ : ℚ) * b) ∧
    (m ≠ "nearest" → m ≠ "upwards" → m ≠ "downwards" →
      round_value x b m = x) := by
  unfold round_value
  refine ⟨?_, ?_, ?_, ?_, ?_⟩ <;> intros <;> split_ifs <;> simp_all

/-- C5: in the projection loop, a year beyond 2035 multiplies the running
value by `1 + f` with label `"Projected"` when a last available factor
`f` has been recorded, and otherwise leaves the running value unchanged
with factor `0` and label `"No projection data"`; the factor is captured
when the loop processes the ceiling year 2035 with both 2035 and 2034
resolved. -/
theorem c5_beyond_ceiling (parameter : Param) (st : ProjState) (year : Int)
    (h : 2035 < year) :
    (∀ f, st.last_available_uprating_factor = some f →
      project_step parameter st year =
        { st with
          current_value := st.current_value * (1 + f)
          uprated_values := st.uprated_values ++ [st.current_value * (1 + f)]
          uprating_factors := st.uprating_factors ++ [f]
          used_months := st.used_months ++ ["Projected"] }) ∧
    (st.last_available_uprating_factor = none →
      project_step parameter st year =
        { st with
          uprated_values := st.uprated_values ++ [st.current_value]
          uprating_factors := st.uprating_factors ++ [0]
          used_months := st.used_months ++ ["No projection data"] }) ∧
    (∀ (st2 : ProjState) (vy vp : ℚ),
      st2.year_values 2035 = some vy → st2.year_values 2034 = some vp →
      ∃ f, (project_step parameter st2 2035).last_available_uprating_factor
          = some f ∧
        (project_step parameter st2 2035).uprating_factors
          = st2.uprating_factors ++ [f]) := by
  refine ⟨?_, ?_, ?_⟩
  · intro f hf
    unfold project_step
    rw [if_pos h, hf]
  · intro hf
    unfold project_step
    rw [if_pos h, hf]
  · intro st2 vy vp hvy hvp
    unfold project_step
    rw [if_neg (by omega), show (2035 : Int) - 1 = 2034 by norm_num, hvy, hvp]
    by_cases htrig : |vy / vp - 1| < 1 / 10000
    · rcases hfeb : parameter 2035 2 with _ | fv
      · refine ⟨vy / vp - 1, ?_, ?_⟩ <;>
          simp [htrig, hfeb, apply_uprating, -one_div]
      · by_cases hne : fv = vy
        · refine ⟨vy / vp - 1, ?_, ?_⟩ <;>
            simp [htrig, hfeb, hne, apply_uprating, -one_div]
        · refine ⟨fv / vp - 1, ?_, ?_⟩ <;>
            simp [htrig, hfeb, hne, apply_uprating, -one_div]
    · refine ⟨vy / vp - 1, ?_, ?_⟩ <;> simp [htrig, apply_uprating, -one_div]

/-- C5, witness: a year beyond the ceiling with a recorded factor. -/
theorem c5_beyond_ceiling_witness :
    project_step cparam1 st5 2036 =
      { st5 with
        current_value := st5.current_value * (1 + 1 / 10)
        uprated_values := st5.uprated_values ++ [st5.current_value * (1 + 1 / 10)]
        uprating_factors := st5.uprating_factors ++ [1 / 10]
        used_months := st5.used_months ++ ["Projected"] } :=
  (c5_beyond_ceiling cparam1 st5 2036 (by norm_num)).1 (1 / 10) rfl

/-- C6: in the both-years-resolved branch with `y ≤ 2035`, when the factor
is within `0.0001` of zero and `y ≥ 2025`, the raw parameter is queried at
February 1st of `y`; if that value exists and differs from the resolved
value, the factor is recomputed from the February value and the stored
value/month for `y` are overwritten to it and `"02"`.  In all other cases
(factor at or above the threshold, `y ≤ 2024`, February value absent or
equal) the value map, month map and factor are left as computed. -/
theorem c6_february_correction (parameter : Param) (st : ProjState)
    (year : Int) (vy vp : ℚ) (h2035 : year ≤ 2035)
    (hvy : st.year_values year = some vy)
    (hvp : st.year_values (year - 1) = some vp) :
    (∀ fv, |vy / vp - 1| < 1 / 10000 → 2025 ≤ year →
      parameter year 2 = some fv → fv ≠ vy →
      (project_step parameter st year).uprating_factors
          = st.uprating_factors ++ [fv / vp - 1] ∧
      (project_step parameter st year).year_values year = some fv ∧
      (project_step parameter st year).month_used year = some "02" ∧
      (project_step parameter st year).used_months
          = st.used_months ++ ["02"] ∧
      (project_step parameter st year).uprated_values
          = st.uprated_values ++ [st.current_value * (1 + (fv / vp - 1))] ∧
      (project_step parameter st year).current_value
          = st.current_value * (1 + (fv / vp - 1))) ∧
    ((¬ (|vy / vp - 1| < 1 / 10000 ∧ 2025 ≤ year) ∨ parameter year 2 = none ∨
        parameter year 2 = some vy) →
      (project_step parameter st year).uprating_factors
          = st.uprating_factors ++ [vy / vp - 1] ∧
      (project_step parameter st year).year_values = st.year_values ∧
      (project_step parameter st year).month_used = st.month_used ∧
      (project_step parameter st year).uprated_values
          = st.uprated_values ++ [st.current_value * (1 + (vy / vp - 1))] ∧
      (project_step parameter st year).current_value
          = st.current_value * (1 + (vy / vp - 1))) := by
  constructor
  · intro fv h1 h2 hfeb hne
    unfold project_step
    rw [if_neg (by omega), hvy, hvp]
    simp [h1, h2, hfeb, hne, apply_uprating, -one_div]
  · intro hother
    unfold project_step
    rw [if_neg (by omega), hvy, hvp]
    rcases hother with hother | hfeb | hfeb
    · simp [hother, apply_uprating, -one_div]
    · by_cases htrig : |vy / vp - 1| < 1 / 10000 ∧ 2025 ≤ year
      · simp [htrig.1, htrig.2, hfeb, apply_uprating, -one_div]
      · simp [htrig, hfeb, apply_uprating, -one_div]
    · by_cases htrig : |vy / vp - 1| < 1 / 10000 ∧ 2025 ≤ year
      · simp [htrig.1, htrig.2, hfeb, apply_uprating, -one_div]
      · simp [htrig, hfeb, apply_uprating, -one_div]

/-- C6, witness: the 2025 January value equals the 2024 value (zero
factor), February differs, and the correction fires. -/
theorem c6_february_correction_witness :
    (project_step param6 st6 2025).uprating_factors
        = st6.uprating_factors ++ [210 / 200 - 1] ∧
    (project_step param6 st6 2025).year_values 2025 = some 210 ∧
    (project_step param6 st6 2025).month_used 2025 = some "02" ∧
    (project_step param6 st6 2025).used_months = st6.used_months ++ ["02"] ∧
    (project_step param6 st6 2025).uprated_values
        = st6.uprated_values ++ [st6.current_value * (1 + (210 / 200 - 1))] ∧
    (project_step param6 st6 2025).current_value
        = st6.current_value * (1 + (210 / 200 - 1)) :=
  (c6_february_correction param6 st6 2025 200 200 (by norm_num) rfl rfl).1
    210 (by norm_num) (by norm_num) rfl (by norm_num)

/-- C7: in the projection loop, a year `y ≤ 2035` for which `y` or its
previous year has no resolved value is handled non-fatally: a warning is
recorded per missing year, the running value is kept unchanged, the
factor appended is `0` and the month label is `"Missing data"`. -/
theorem c7_missing_data (parameter : Param) (st : ProjState) (year : Int)
    (h1 : year ≤ 2035)
    (h2 : st.year_values year = none ∨ st.year_values (year - 1) = none) :
    project_step parameter st year =
      { st with
        uprated_values := st.uprated_values ++ [st.current_value]
        uprating_factors := st.uprating_factors ++ [0]
        used_months := st.used_months ++ ["Missing data"]
        warnings := st.warnings
          ++ (if (st.year_values year).isNone then [year] else [])
          ++ (if (st.year_values (year - 1)).isNone then [year - 1]
              else []) } := by
  unfold project_step
  rw [if_neg (by omega)]
  rcases hy : st.year_values year with _ | vy <;>
    rcases hp : st.year_values (year - 1) with _ | vp <;>
    simp_all

/-- C7, witness: a state with no resolved data at all. -/
theorem c7_missing_data_witness :
    project_step cparam1 st7 2025 =
      { st7 with
        uprated_values := st7.uprated_values ++ [st7.current_value]
        uprating_factors := st7.uprating_factors ++ [0]
        used_months := st7.used_months ++ ["Missing data"]
        warnings := st7.warnings
          ++ (if (st7.year_values 2025).isNone then [2025] else [])
          ++ (if (st7.year_values (2025 - 1)).isNone then [(2025 : Int) - 1]
              else []) } :=
  c7_missing_data cparam1 st7 2025 (by norm_num) (Or.inl rfl)

/-- C8: `round_value` is idempotent for every positive base and each of
the three defined methods. -/
theorem c8_round_value_idempotent (x b : ℚ) (m : String) (hb : 0 < b)
    (hm : m = "nearest" ∨ m = "upwards" ∨ m = "downwards") :
    round_value (round_value x b m) b m = round_value x b m := by
  have hb2 : b ≠ 0 := ne_of_gt hb
  rcases hm with h | h | h <;> subst h <;>
    simp [round_value, hb2, pyRound_intCast]

/-- C8, witness. -/
theorem c8_round_value_idempotent_witness :
    round_value (round_value (3 / 2) 1 "nearest") 1 "nearest"
      = round_value (3 / 2) 1 "nearest" :=
  c8_round_value_idempotent (3 / 2) 1 "nearest" one_pos (Or.inl rfl)

/-- C9 (amended): for every table, base and method, and every column name
present in the table, `apply_rounding_to_dataframe` returns a new table
in which the named column's values are the `round_value` images of the
input column, and every other column reads exactly as in the input table;
the embedding is pure, so the input table itself is untouched.  (For a
column name absent from the table the pandas code raises `KeyError`
instead of returning a table, see the counterexample.) -/
theorem c9_rounding_named_column (df : DataFrame) (cn : String) (b : ℚ)
    (m : String) (vals : List ℚ) (h : df.lookup cn = some vals) :
    ∃ out, apply_rounding_to_dataframe df cn b m = some out ∧
      out.lookup cn = some (vals.map fun x => round_value x b m) ∧
      ∀ c2, c2 ≠ cn → out.lookup c2 = df.lookup c2 := by
  refine ⟨df.map fun p => if p.1 = cn then
      (p.1, vals.map fun x => round_value x b m) else p, ?_, ?_, ?_⟩
  · unfold apply_rounding_to_dataframe
    rw [h]
  · exact lookup_map_rounded_self cn vals b m df h
  · exact fun c2 hne => lookup_map_rounded_other cn vals b m c2 hne df

/-- C9, witness at a concrete two-column table. -/
theorem c9_rounding_named_column_witness :
    ∃ out, apply_rounding_to_dataframe df0 "Uprated Value" 1 "nearest"
        = some out ∧
      out.lookup "Uprated Value"
        = some ([(3 : ℚ) / 2].map fun x => round_value x 1 "nearest") ∧
      ∀ c2, c2 ≠ "Uprated Value" → out.lookup c2 = df0.lookup c2 :=
  c9_rounding_named_column df0 "Uprated Value" 1 "nearest" [3 / 2] rfl

/-- C9, counterexample to the claim as stated: on a table without the
named column no table is returned at all (pandas raises `KeyError` when
reading the absent column), so the claim does not hold for every column
name. -/
theorem c9_missing_column_refuted :
    apply_rounding_to_dataframe [("A", [(1 : ℚ)])] "B" 1 "nearest"
      = none := rfl

/-- C10 (amended): both divisions of the projection loop (the factor
computation and the February recomputation) divide by the stored
previous-year value; under the precondition that every value the
parameter returns (any month, including the February probes) is nonzero,
every recorded divisor of the run is nonzero.  The original precondition,
quantifying only over resolver outputs, is refuted separately. -/
theorem c10_division_safety (p : Param) (v : ℚ) (sy : Int) (n : Nat)
    (Hp : ∀ y m q, p y m = some q → q ≠ 0) :
    ∀ d ∈ (project v sy n p).divisors, d ≠ 0 := by
  unfold project
  refine fold_step_divisors p Hp (later_years sy n) _ ?_ ?_
  · show MapNonzero (build_year_values p sy n).1
    unfold build_year_values
    exact fold_record_nonzero p Hp _ _ (fun y q h => by simp at h)
  · intro d hd
    simp at hd

set_option maxHeartbeats 1000000 in
/-- C10, witness: a run of the projection over a parameter with nonzero
values; 310 is one of its recorded divisors. -/
theorem c10_division_safety_witness : (310 : ℚ) ≠ 0 :=
  c10_division_safety cparam1 1000 2024 2 cparam1_values_nonzero 310
    (by norm_num [project, build_year_values, resolve_range, record_year,
      later_years, project_step, apply_uprating, get_best_value_for_year,
      get_all_values_for_year, cparam1, twoDigit, List.range', List.range,
      List.range.loop, List.filterMap])

set_option maxHeartbeats 1000000 in
/-- C10, counterexample to the claim as stated: `cparam10` resolves every
year to a nonzero value (100, 100, 50), yet its February 2025 value is 0;
the near-zero correction stores that 0 into the year map, and the factor
computation for 2026 then divides by it, so the run records a zero
divisor. -/
theorem c10_resolved_precondition_refuted :
    ¬ (∀ (p : Param) (v : ℚ) (sy : Int) (n : Nat),
        (∀ y q s, get_best_value_for_year p y = some (q, s) → q ≠ 0) →
        ∀ d ∈ (project v sy n p).divisors, d ≠ 0) := by
  intro H
  exact H cparam10 1000 2024 2 cparam10_resolver_nonzero 0
    (by norm_num [project, build_year_values, resolve_range, record_year,
      later_years, project_step, apply_uprating, get_best_value_for_year,
      get_all_values_for_year, cparam10, twoDigit, List.range', List.range,
      List.range.loop, List.filterMap]) rfl

end Uprating
